import Mathlib

/-!
Shallow embedding of jee1mr/ghrepo_followers (src/ghrepo_followers.py and
src/main.py): a tool that fetches the starrers, watchers and forkers of a
GitHub repository, resolves each username to a profile through a local
tinydb cache, and exports the records to CSV split by email presence.

Remote HTTP responses, the tinydb storage layer and the clock are modelled
as explicit parameters (oracles); everything else follows the Python source
line by line.
-/

namespace GhRepoFollowers

/-- A user profile record, as built by GithubRepo.__get_user_info
(src/ghrepo_followers.py lines 152-153): the username plus five fields that
the GitHub API reports as a string or null. A Python value of None is
modelled as Option.none. -/
structure UserProfile where
  username : String
  name : Option String
  email : Option String
  website : Option String
  organization : Option String
  location : Option String
deriving DecidableEq, Repr

/-- One element of the JSON array returned by the stargazers or subscribers
listing endpoint: the code reads user[\x7blogin\x7d] only. -/
structure StarEntry where
  login : String
deriving DecidableEq, Repr

/-- One element of the JSON array returned by the forks listing endpoint:
the code reads user[\x7bowner\x7d][\x7blogin\x7d]. -/
structure ForkEntry where
  owner : StarEntry
deriving DecidableEq, Repr

/-- The message of the exception raised on a non-200 listing response
(src/ghrepo_followers.py lines 61, 82, 103). -/
def apiFailMsg : String := "Github API Failed. Please check for rate limits."

/-- The shared pagination loop of GithubRepo.__get_starrers, __get_forkers
and __get_watchers (src/ghrepo_followers.py lines 54-68, 75-89, 96-110),
which differ only in the per-entry extraction expression, passed here as
extract. resp maps a page number to the HTTP status code and decoded JSON
body of the GET for that page. The loop runs while the accumulator is
shorter than count, raises on a non-200 status, breaks on an empty page,
and otherwise appends the page and moves to the next page number. Each
iteration that recurses appends at least one username, so count iterations
always suffice; fuel bounds the iterations and the fuel-0 result equals the
loop-exit result, so with fuel = count the function computes exactly what
the Python loop computes. -/
def relLoop {α : Type} (extract : α → String) (resp : Nat → Nat × List α)
    (count : Nat) : Nat → Nat → List String → Except String (List String)
  | 0, _, users => .ok users
  | fuel + 1, page, users =>
    if users.length < count then
      if (resp page).1 ≠ 200 then .error apiFailMsg
      else if ((resp page).2).isEmpty then .ok users
      else relLoop extract resp count fuel (page + 1)
        (users ++ ((resp page).2).map extract)
    else .ok users

/-- GithubRepo.__get_starrers (src/ghrepo_followers.py lines 49-68): page 1
first, extraction user[\x7blogin\x7d], expected total stargazers_count. -/
def get_starrers (resp : Nat → Nat × List StarEntry) (count : Nat) :
    Except String (List String) :=
  relLoop StarEntry.login resp count count 1 []

/-- GithubRepo.__get_forkers (src/ghrepo_followers.py lines 70-89): page 1
first, extraction user[\x7bowner\x7d][\x7blogin\x7d], expected total forks_count. -/
def get_forkers (resp : Nat → Nat × List ForkEntry) (count : Nat) :
    Except String (List String) :=
  relLoop (fun e => e.owner.login) resp count count 1 []

/-- GithubRepo.__get_watchers (src/ghrepo_followers.py lines 91-110): page 1
first, extraction user[\x7blogin\x7d], expected total subscribers_count. -/
def get_watchers (resp : Nat → Nat × List StarEntry) (count : Nat) :
    Except String (List String) :=
  relLoop StarEntry.login resp count count 1 []

/-- Matches pat against the front of s: some rest when s = pat ++ rest,
none otherwise. Building block for the Python str.replace embedding. -/
def dropPat : List Char → List Char → Option (List Char)
  | [], s => some s
  | _ :: _, [] => none
  | p :: ps, c :: cs => if p = c then dropPat ps cs else none

/-- Python str.replace(pat, \x27\x27) on character lists: scan left to right,
removing each non-overlapping occurrence of pat. fuel bounds the scan; one
unit is spent per character position, and at fuel 0 the rest of the string
is returned unchanged, so fuel = s.length always suffices for a nonempty
pattern. -/
def removeAllPat (pat : List Char) : Nat → List Char → List Char
  | 0, s => s
  | _ + 1, [] => []
  | fuel + 1, c :: cs =>
    match dropPat pat (c :: cs) with
    | some rest => removeAllPat pat fuel rest
    | none => c :: removeAllPat pat fuel cs

/-- Whether pat occurs (as a contiguous sublist) anywhere in s. -/
def occursPat (pat : List Char) : List Char → Bool
  | [] => (dropPat pat []).isSome
  | c :: cs => (dropPat pat (c :: cs)).isSome || occursPat pat cs

/-- The host string literal of __parse_repo_name_from_url. -/
def ghHost : String := "https://github.com/"

/-- Python s.replace(pat, \x27\x27) on strings. -/
def pyReplaceAll (s pat : String) : String :=
  String.mk (removeAllPat pat.toList s.toList.length s.toList)

/-- GithubRepo.__parse_repo_name_from_url (src/ghrepo_followers.py lines
42-47 and src/main.py lines 48-53): url.replace with the host literal and
an empty replacement. -/
def parse_repo_name_from_url (url : String) : String :=
  pyReplaceAll url ghHost

/-- One tinydb table, holding the cached profiles of one repository. -/
abbrev Table := List UserProfile

/-- GithubRepo.__get_user_from_db (src/ghrepo_followers.py lines 112-124):
search the table for records whose username field equals the argument,
return the first hit, and return the empty record (modelled none) when
there is no hit or when the storage access raises (dbOk = false models the
except branch). -/
def get_user_from_db (dbOk : Bool) (t : Table) (username : String) :
    Option UserProfile :=
  if dbOk then (t.filter (fun r => r.username == username)).head? else none

/-- tinydb table.upsert with the condition username == v.username
(src/ghrepo_followers.py line 132): when a record with that username
exists, every matching record has all its fields overwritten by v (the
update dict carries every field); otherwise v is appended. -/
def upsertUser (t : Table) (v : UserProfile) : Table :=
  if t.any (fun r => r.username == v.username) then
    t.map (fun r => if r.username == v.username then v else r)
  else t ++ [v]

/-- GithubRepo.__save_user_to_db (src/ghrepo_followers.py lines 126-134):
upsert keyed by username; when the storage access raises (dbOk = false,
the except branch) the table is left unchanged and no error escapes. -/
def save_user_to_db (dbOk : Bool) (t : Table) (v : UserProfile) : Table :=
  if dbOk then upsertUser t v else t

/-- The outcome of one remote get_user call inside __get_user_info: a
profile, a GithubException (carrying the rate-limit reset epoch read from
g.rate_limiting_resettime), or any other exception. -/
inductive RemoteResult where
  | success (p : UserProfile)
  | rateLimited (resettime : Nat)
  | transient
deriving DecidableEq, Repr

/-- The exceptions GithubRepo methods raise, by constructor: the listing
failure message and the rate-limit exception carrying the remaining
cooldown in minutes. -/
inductive GhError where
  | apiFailure (msg : String)
  | rateLimitExceeded (minutes : Nat)
deriving DecidableEq, Repr

/-- GithubRepo.__time_remaining (src/ghrepo_followers.py lines 165-169):
minutes until the reset epoch, 0 when the epoch has passed. Times are in
whole seconds; int() truncation on a positive value is Nat division. -/
def time_remaining (epoch now : Nat) : Nat :=
  if now < epoch then (epoch - now) / 60 else 0

/-- The retry loop of GithubRepo.__get_user_info (src/ghrepo_followers.py
lines 136-163), with fuel = the remaining retry_limit and attempt the index
into calls, the oracle of successive remote outcomes. Each iteration
consults the cache and breaks on a hit; on a miss it performs the remote
call: a success is saved and returned, a GithubException is re-raised as
rateLimitExceeded with the remaining minutes, and any other exception
decrements retry_limit and loops. When retry_limit reaches 0 the loop
falls through and returns the user value of the last iteration, which is
the (missing) cache lookup result. -/
def get_user_info_loop (lookupOk saveOk : Bool) (username : String)
    (calls : Nat → RemoteResult) (now : Nat) :
    Nat → Nat → Table → Except GhError (Option UserProfile × Table)
  | 0, _, t => .ok (get_user_from_db lookupOk t username, t)
  | fuel + 1, attempt, t =>
    match get_user_from_db lookupOk t username with
    | some cached => .ok (some cached, t)
    | none =>
      match calls attempt with
      | .success p => .ok (some p, save_user_to_db saveOk t p)
      | .rateLimited resettime =>
          .error (.rateLimitExceeded (time_remaining resettime now))
      | .transient =>
          get_user_info_loop lookupOk saveOk username calls now fuel
            (attempt + 1) t

/-- GithubRepo.__get_user_info: the retry loop entered with retry_limit = 3
and the first remote attempt. -/
def get_user_info (lookupOk saveOk : Bool) (username : String)
    (calls : Nat → RemoteResult) (now : Nat) (t : Table) :
    Except GhError (Option UserProfile × Table) :=
  get_user_info_loop lookupOk saveOk username calls now 3 0 t

/-- The exception raised at src/main.py line 43 on any nonempty input:
the write calls at lines 43 and 46 go to f.writerows on the raw file
object, which has no such attribute — the csv.writer bound at line 42 is
never used. -/
def writerowsAttrError : String :=
  "AttributeError: file object has no attribute writerows"

/-- GithubRepo.export_to_csv (src/main.py lines 34-46), modelled as the
outcome together with the list of rows written to the file. An empty input
returns before opening the file: no rows and no error. A nonempty input
opens the file and then hits the f.writerows attribute lookup at line 43,
which raises AttributeError before anything is written, so no rows are
ever produced on that path either — the error propagates instead. -/
def export_to_csv (users : List UserProfile) :
    Except String (List (List String)) :=
  if users.length = 0 then .ok []
  else .error writerowsAttrError

/-- The email partition of get_all_users (src/ghrepo_followers.py line
190): the rows of the DataFrame whose email is not NA. pandas isna is true
exactly for a missing value (Python None, here Option.none); an empty
string is not NA. -/
def df_email_users (users : List UserProfile) : List UserProfile :=
  users.filter (fun u => !(u.email).isNone)

/-- The complement partition of get_all_users (src/ghrepo_followers.py
line 191): the rows whose email is NA. -/
def df_noemail_users (users : List UserProfile) : List UserProfile :=
  users.filter (fun u => (u.email).isNone)

/-! Helper lemmas about the cache. -/

/-- After an upsert that took the update branch, the first record matching
the username is the new value. -/
theorem head_filter_map (v : UserProfile) :
    ∀ t : Table, t.any (fun r => r.username == v.username) = true →
      ((t.map (fun r => if r.username == v.username then v else r)).filter
        (fun r => r.username == v.username)).head? = some v := by
  intro t
  induction t with
  | nil => intro h; simp at h
  | cons r rs ih =>
    intro h
    by_cases hr : r.username = v.username
    · simp only [List.map_cons, List.filter_cons, hr, beq_self_eq_true, if_true]
      simp
    · have hrb : (r.username == v.username) = false := by
        simp [hr]
      have hrs : rs.any (fun r => r.username == v.username) = true := by
        simp only [List.any_cons, hrb, Bool.false_or] at h
        exact h
      simp only [List.map_cons, List.filter_cons, hrb, Bool.false_eq_true, if_false]
      exact ih hrs

/-- A table with no record matching the username filters to nothing. -/
theorem filter_no_match (v : UserProfile) :
    ∀ t : Table, t.any (fun r => r.username == v.username) = false →
      t.filter (fun r => r.username == v.username) = [] := by
  intro t
  induction t with
  | nil => intro _; rfl
  | cons r rs ih =>
    intro h
    simp only [List.any_cons, Bool.or_eq_false_iff] at h
    simp [List.filter_cons, h.1, ih h.2]

/-- Round trip through the cache: a lookup right after a save, keyed by the
saved username, returns the saved record. -/
theorem lookup_save (t : Table) (v : UserProfile) :
    get_user_from_db true (save_user_to_db true t v) v.username = some v := by
  unfold get_user_from_db save_user_to_db upsertUser
  by_cases h : t.any (fun r => r.username == v.username)
  · simpa [h] using head_filter_map v t h
  · have hnil := filter_no_match v t (by simpa using h)
    simp [h, List.filter_append, hnil]

/-! Helper lemmas about the resolver loop. -/

/-- When the cache misses and attempts numbered attempt, attempt+1, ... are
transient up to the j-th, which reports a rate limit, the retry loop raises
the rate-limit error with the remaining cooldown, for any fuel larger than
j: the raise escapes the loop at once, consuming no retry attempt. -/
theorem loop_rate_limited (lookupOk saveOk : Bool) (u : String)
    (calls : Nat → RemoteResult) (now r : Nat) :
    ∀ (j fuel attempt : Nat) (t : Table),
      get_user_from_db lookupOk t u = none →
      (∀ i, i < j → calls (attempt + i) = .transient) →
      calls (attempt + j) = .rateLimited r →
      j < fuel →
      get_user_info_loop lookupOk saveOk u calls now fuel attempt t =
        .error (.rateLimitExceeded (time_remaining r now)) := by
  intro j
  induction j with
  | zero =>
    intro fuel attempt t hmiss _ hrl hfj
    obtain ⟨f, rfl⟩ : ∃ f, fuel = f + 1 := ⟨fuel - 1, by omega⟩
    have hrl0 : calls attempt = .rateLimited r := by simpa using hrl
    simp [get_user_info_loop, hmiss, hrl0]
  | succ k ih =>
    intro fuel attempt t hmiss htrans hrl hfj
    obtain ⟨f, rfl⟩ : ∃ f, fuel = f + 1 := ⟨fuel - 1, by omega⟩
    have h0 : calls attempt = .transient := by simpa using htrans 0 (by omega)
    have step : get_user_info_loop lookupOk saveOk u calls now (f + 1) attempt t
        = get_user_info_loop lookupOk saveOk u calls now f (attempt + 1) t := by
      simp [get_user_info_loop, hmiss, h0]
    rw [step]
    refine ih f (attempt + 1) t hmiss ?_ ?_ (by omega)
    · intro i hi
      have := htrans (i + 1) (by omega)
      simpa [Nat.add_assoc, Nat.add_comm 1 i] using this
    · simpa [Nat.add_assoc, Nat.add_comm 1 k] using hrl

/-! Claim theorems. -/

/-! Helper lemmas about the url parse. -/

/-- dropPat strips an exact front occurrence of the pattern. -/
theorem dropPat_front (pat rest : List Char) :
    dropPat pat (pat ++ rest) = some rest := by
  induction pat with
  | nil => rfl
  | cons p ps ih => simp [dropPat, ih]

/-- When the pattern occurs nowhere in s, the replace scan returns s
unchanged, whatever the fuel. -/
theorem removeAllPat_no_occurrence (pat : List Char) :
    ∀ (s : List Char) (n : Nat),
      occursPat pat s = false → removeAllPat pat n s = s := by
  intro s
  induction s with
  | nil => intro n _; cases n <;> rfl
  | cons c cs ih =>
    intro n h
    cases n with
    | zero => rfl
    | succ m =>
      simp only [occursPat, Bool.or_eq_false_iff] at h
      have h1 : dropPat pat (c :: cs) = none := by
        cases hd : dropPat pat (c :: cs) with
        | none => rfl
        | some r => rw [hd] at h; simp at h
      simp [removeAllPat, h1, ih m h.2]

/-- A front occurrence of a nonempty pattern is removed and the scan
continues after it. -/
theorem removeAllPat_front (pat rest : List Char) (n : Nat)
    (hne : pat ≠ []) :
    removeAllPat pat (n + 1) (pat ++ rest) = removeAllPat pat n rest := by
  cases pat with
  | nil => exact absurd rfl hne
  | cons p ps =>
    have hd : dropPat (p :: ps) (p :: (ps ++ rest)) = some rest := by
      simpa using dropPat_front (p :: ps) rest
    simp [removeAllPat, hd]

/-! Helper lemmas about the pagination loop. -/

/-- Whenever every page body has at most P entries, the loop accumulator
cannot end longer than the larger of its start length and count - 1 + P:
the loop only requests another page while strictly below count, and that
page adds at most P names. Holds for every fuel. -/
theorem relLoop_length_le {α : Type} (extract : α → String)
    (resp : Nat → Nat × List α) (count P : Nat)
    (hP : ∀ p, ((resp p).2).length ≤ P) :
    ∀ (fuel page : Nat) (users l : List String),
      relLoop extract resp count fuel page users = .ok l →
      l.length ≤ max users.length (count - 1 + P) := by
  intro fuel
  induction fuel with
  | zero =>
    intro page users l h
    have : users = l := by simpa [relLoop] using h
    exact this ▸ Nat.le_max_left _ _
  | succ f ih =>
    intro page users l h
    simp only [relLoop] at h
    by_cases hlt : users.length < count
    · rw [if_pos hlt] at h
      by_cases hst : (resp page).1 ≠ 200
      · rw [if_pos hst] at h
        simp at h
      · rw [if_neg hst] at h
        by_cases hemp : ((resp page).2).isEmpty
        · rw [if_pos hemp] at h
          have : users = l := by simpa using h
          exact this ▸ Nat.le_max_left _ _
        · rw [if_neg hemp] at h
          have hrec := ih (page + 1) (users ++ ((resp page).2).map extract) l h
          have hm : (((resp page).2).map extract).length ≤ P := by
            rw [List.length_map]
            exact hP page
          have hle : (users ++ ((resp page).2).map extract).length
              ≤ count - 1 + P := by
            rw [List.length_append]
            omega
          rw [Nat.max_eq_right hle] at hrec
          exact le_trans hrec (Nat.le_max_right _ _)
    · rw [if_neg hlt] at h
      have : users = l := by simpa using h
      exact this ▸ Nat.le_max_left _ _

/-- A 200 response with an empty body on the first page ends the fetch at
once with the empty accumulator, whatever the expected count. -/
theorem relLoop_empty_first {α : Type} (extract : α → String)
    (resp : Nat → Nat × List α) (count : Nat) (hcount : 0 < count)
    (hst : (resp 1).1 = 200) (hempty : ((resp 1).2).isEmpty = true) :
    relLoop extract resp count count 1 [] = .ok [] := by
  obtain ⟨c, rfl⟩ : ∃ c, count = c + 1 := ⟨count - 1, by omega⟩
  simp [relLoop, hst, hempty]

/-- A concrete profile used to instantiate the cache theorems. -/
def profAlice : UserProfile :=
  ⟨"alice", some "Alice", some "alice@x.com", none, none, none⟩

/-- A second concrete profile with the same username as profAlice but
different field values. -/
def profAlice2 : UserProfile :=
  ⟨"alice", none, none, none, none, some "NYC"⟩

/-- Claim C8: a cache store (save_user_to_db) followed by a lookup
(get_user_from_db) with the same username key returns exactly the stored
profile record, whatever the prior table contents. -/
theorem c8_store_lookup_roundtrip (t : Table) (v : UserProfile) (u : String)
    (h : u = v.username) :
    get_user_from_db true (save_user_to_db true t v) u = some v :=
  h ▸ lookup_save t v

/-- Witness for C8 at a concrete input: storing profAlice in the empty
table and looking up alice returns profAlice. -/
theorem c8_store_lookup_roundtrip_witness :
    get_user_from_db true (save_user_to_db true [] profAlice) "alice" =
      some profAlice :=
  c8_store_lookup_roundtrip [] profAlice "alice" rfl

/-- Claim C7: storing twice under the same username key with two different
profile values leaves the second value as the lookup result, whatever the
prior table contents (insert-or-replace, last write wins). -/
theorem c7_last_write_wins (t : Table) (v1 v2 : UserProfile) (u : String)
    (h1 : v1.username = u) (h2 : v2.username = u) (hne : v1 ≠ v2) :
    get_user_from_db true
      (save_user_to_db true (save_user_to_db true t v1) v2) u = some v2 :=
  h2 ▸ lookup_save (save_user_to_db true t v1) v2

/-- Witness for C7 at a concrete input: storing profAlice then profAlice2
under alice makes the lookup return profAlice2. -/
theorem c7_last_write_wins_witness :
    get_user_from_db true
      (save_user_to_db true (save_user_to_db true [] profAlice) profAlice2)
      "alice" = some profAlice2 :=
  c7_last_write_wins [] profAlice profAlice2 "alice" rfl rfl (by decide)

/-- Claim C4: on a cache miss, if the j-th remote attempt (after j earlier
transient failures, any j below the retry bound 3) reports a rate limit,
get_user_info immediately raises rateLimitExceeded carrying the minutes
computed by time_remaining from the reported reset epoch; no retry attempt
is consumed and the error is not retried locally. -/
theorem c4_rate_limit_terminal (lookupOk saveOk : Bool) (t : Table)
    (u : String) (calls : Nat → RemoteResult) (now resettime j : Nat)
    (hmiss : get_user_from_db lookupOk t u = none)
    (hj : j < 3)
    (htrans : ∀ i, i < j → calls i = .transient)
    (hrl : calls j = .rateLimited resettime) :
    get_user_info lookupOk saveOk u calls now t =
      .error (.rateLimitExceeded (time_remaining resettime now)) := by
  unfold get_user_info
  exact loop_rate_limited lookupOk saveOk u calls now resettime j 3 0 t hmiss
    (fun i hi => by simpa using htrans i hi) (by simpa using hrl) hj

/-- The remote oracle for the C4 witness: one transient failure, then a
rate limit with reset epoch 120. -/
def c4calls : Nat → RemoteResult
  | 0 => .transient
  | _ + 1 => .rateLimited 120

/-- Witness for C4 at a concrete input: with an empty cache and c4calls,
get_user_info raises the rate-limit error with the cooldown from epoch 120
at time 0. -/
theorem c4_rate_limit_terminal_witness :
    get_user_info true true "alice" c4calls 0 [] =
      .error (.rateLimitExceeded (time_remaining 120 0)) :=
  c4_rate_limit_terminal true true [] "alice" c4calls 0 120 1 rfl
    (by omega) (fun i hi => by interval_cases i; rfl) rfl

/-- Claim C5: on a cache miss, three consecutive transient (non-rate-limit)
remote failures make get_user_info return the degraded empty record (none)
without raising, leaving the table unchanged. -/
theorem c5_transient_degrades (lookupOk saveOk : Bool) (t : Table)
    (u : String) (calls : Nat → RemoteResult) (now : Nat)
    (hmiss : get_user_from_db lookupOk t u = none)
    (h0 : calls 0 = .transient) (h1 : calls 1 = .transient)
    (h2 : calls 2 = .transient) :
    get_user_info lookupOk saveOk u calls now t = .ok (none, t) := by
  have s1 : get_user_info lookupOk saveOk u calls now t
      = get_user_info_loop lookupOk saveOk u calls now 2 1 t := by
    show get_user_info_loop lookupOk saveOk u calls now (2 + 1) 0 t = _
    simp [get_user_info_loop, hmiss, h0]
  have s2 : get_user_info_loop lookupOk saveOk u calls now 2 1 t
      = get_user_info_loop lookupOk saveOk u calls now 1 2 t := by
    show get_user_info_loop lookupOk saveOk u calls now (1 + 1) 1 t = _
    simp [get_user_info_loop, hmiss, h1]
  have s3 : get_user_info_loop lookupOk saveOk u calls now 1 2 t
      = get_user_info_loop lookupOk saveOk u calls now 0 3 t := by
    show get_user_info_loop lookupOk saveOk u calls now (0 + 1) 2 t = _
    simp [get_user_info_loop, hmiss, h2]
  rw [s1, s2, s3]
  show Except.ok (get_user_from_db lookupOk t u, t) = _
  rw [hmiss]

/-- Witness for C5 at a concrete input: every remote attempt transient,
empty cache; get_user_info returns the empty record and the empty table. -/
theorem c5_transient_degrades_witness :
    get_user_info true true "alice" (fun _ => RemoteResult.transient) 0 [] =
      .ok (none, []) :=
  c5_transient_degrades true true [] "alice" (fun _ => RemoteResult.transient)
    0 rfl rfl rfl rfl

/-- Claim C10: no cache operation propagates an exception: a lookup whose
storage access fails returns the empty record like a miss, a store whose
storage access fails leaves the table unchanged, and with such a failing
store the resolver still returns the freshly fetched profile (unpersisted,
table unchanged). -/
theorem c10_cache_failures_swallowed (t : Table) (u : String)
    (v p : UserProfile) (calls : Nat → RemoteResult) (now : Nat)
    (hmiss : get_user_from_db true t u = none)
    (hcall : calls 0 = .success p) :
    get_user_from_db false t u = none ∧
    save_user_to_db false t v = t ∧
    get_user_info true false u calls now t = .ok (some p, t) := by
  refine ⟨rfl, rfl, ?_⟩
  show get_user_info_loop true false u calls now (2 + 1) 0 t = _
  simp [get_user_info_loop, hmiss, hcall, save_user_to_db]

/-- Witness for C10 at a concrete input: empty table, first remote call
succeeds with profAlice, saving disabled by storage failure; the resolver
still returns profAlice and the table stays empty. -/
theorem c10_cache_failures_swallowed_witness :
    get_user_from_db false [] "alice" = none ∧
    save_user_to_db false [] profAlice = [] ∧
    get_user_info true false "alice" (fun _ => RemoteResult.success profAlice)
      0 [] = .ok (some profAlice, []) :=
  c10_cache_failures_swallowed [] "alice" profAlice profAlice
    (fun _ => RemoteResult.success profAlice) 0 rfl rfl

/-- The profile of the C2 example whose email is present. -/
def recA : UserProfile := ⟨"a", none, some "a@x.com", none, none, none⟩

/-- The profile of the C2 example whose email is the empty string: a value
that is present (not NA for pandas isna) though empty. -/
def recB : UserProfile := ⟨"b", none, some "", none, none, none⟩

/-- A profile whose email is missing altogether (Python None, pandas NA). -/
def recBNone : UserProfile := ⟨"b", none, none, none, none, none⟩

/-- Counterexample to Claim C2 as stated: on the input
[recA with email a@x.com, recB with email the empty string] the code's
split puts b in the email file, not the no-email file — pandas isna is
false on an empty string, so only a missing (None) email counts as absent. -/
theorem c2_counterexample :
    (df_email_users [recA, recB]).map UserProfile.username = ["a", "b"] ∧
    (df_noemail_users [recA, recB]).map UserProfile.username = [] := by
  decide

/-- Claim C2 (amended): the split is by email presence in the pandas isna
sense — every record with a present (non-None) email field, the empty
string included, goes to the email file, and exactly the records with a
missing email go to the no-email file; the two parts cover the input. For
[a with an email, b with no email] the email file holds only a and the
no-email file only b. -/
theorem c2_split_by_email_presence (users : List UserProfile) :
    (df_email_users users).all (fun u => (u.email).isSome) = true ∧
    (df_noemail_users users).all (fun u => (u.email).isNone) = true ∧
    (df_email_users users).length + (df_noemail_users users).length
      = users.length ∧
    (df_email_users [recA, recBNone]).map UserProfile.username = ["a"] ∧
    (df_noemail_users [recA, recBNone]).map UserProfile.username = ["b"] := by
  refine ⟨?_, ?_, ?_, by decide, by decide⟩
  · rw [List.all_eq_true]
    intro u hu
    have := List.of_mem_filter hu
    simpa [Option.isSome_iff_ne_none, Option.isNone_iff_eq_none] using this
  · rw [List.all_eq_true]
    intro u hu
    simp only [df_noemail_users, List.mem_filter] at hu
    exact hu.2
  · simpa [df_email_users, df_noemail_users] using
      (List.length_eq_length_filter_add (l := users)
        (fun u => !(u.email).isNone)).symm

/-- Counterexample to Claim C3 as stated: the input below does not begin
with the host prefix, yet it is not passed downstream unchanged — the code
removes the occurrence of the prefix in the middle of the string, because
Python str.replace substitutes every occurrence, not only a front one. -/
theorem c3_counterexample :
    dropPat ghHost.toList "xhttps://github.com/o/r".toList = none ∧
    parse_repo_name_from_url "xhttps://github.com/o/r" = "xo/r" ∧
    parse_repo_name_from_url "xhttps://github.com/o/r" ≠
      "xhttps://github.com/o/r" := by
  decide

/-- Claim C3 (amended): parse_repo_name_from_url performs a literal
removal of every occurrence of the host string anywhere in the input,
with no validation of the remainder; a URL in which the host string occurs
nowhere is passed downstream unchanged (silent failure), and a URL that is
the host followed by an occurrence-free remainder maps to that remainder. -/
theorem c3_literal_removal (url : String)
    (h : occursPat ghHost.toList url.toList = false) :
    parse_repo_name_from_url url = url ∧
    parse_repo_name_from_url (ghHost ++ url) = url := by
  constructor
  · show String.mk (removeAllPat ghHost.toList url.toList.length url.toList)
      = url
    rw [removeAllPat_no_occurrence _ _ _ h]
    rfl
  · show String.mk (removeAllPat ghHost.toList
      (ghHost ++ url).toList.length (ghHost ++ url).toList) = url
    have hlist : (ghHost ++ url).toList = ghHost.toList ++ url.toList :=
      String.data_append ghHost url
    rw [hlist, List.length_append]
    have h19 : ghHost.toList.length = 19 := rfl
    rw [h19]
    have hn : 19 + url.toList.length = (18 + url.toList.length) + 1 := by
      omega
    rw [hn, removeAllPat_front _ _ _ (by decide),
      removeAllPat_no_occurrence _ _ _ h]
    rfl

/-- Witness for C3 at a concrete input: the owner/name identifier contains
no occurrence of the host, so it passes unchanged, and the well-formed URL
maps to it. -/
theorem c3_literal_removal_witness :
    parse_repo_name_from_url "jee1mr/ghrepo" = "jee1mr/ghrepo" ∧
    parse_repo_name_from_url (ghHost ++ "jee1mr/ghrepo") = "jee1mr/ghrepo" :=
  c3_literal_removal "jee1mr/ghrepo" (by decide)

/-- Claim C6: during a relation listing fetch, a response with a
non-success status code makes the whole fetch raise the API-failure
exception, with no retry and no usernames returned: at the top for the
first page, and from any loop state whose page returns a non-200 status. -/
theorem c6_non_success_aborts (resp : Nat → Nat × List StarEntry)
    (count page fuel : Nat) (users : List String)
    (hcount : 0 < count) (hst1 : (resp 1).1 ≠ 200)
    (hlt : users.length < count) (hstp : (resp page).1 ≠ 200) :
    get_starrers resp count = .error apiFailMsg ∧
    relLoop StarEntry.login resp count (fuel + 1) page users =
      .error apiFailMsg := by
  constructor
  · obtain ⟨c, rfl⟩ : ∃ c, count = c + 1 := ⟨count - 1, by omega⟩
    show relLoop StarEntry.login resp (c + 1) (c + 1) 1 [] = _
    simp [relLoop, hst1]
  · simp [relLoop, hlt, hstp]

/-- The listing oracle for the C6 witness: every page answers 403. -/
def wrespBad : Nat → Nat × List StarEntry := fun _ => (403, [])

/-- Witness for C6 at a concrete input: a 403 on page 1 with one expected
starrer aborts the fetch with the API-failure message. -/
theorem c6_non_success_aborts_witness :
    get_starrers wrespBad 1 = .error apiFailMsg ∧
    relLoop StarEntry.login wrespBad 1 (0 + 1) 1 [] = .error apiFailMsg :=
  c6_non_success_aborts wrespBad 1 1 0 [] (by decide) (by decide) (by decide)
    (by decide)

/-- Claim C1: for each relation, when every page carries at most P entries,
the fetcher returns a username list of length at most the expected count
plus P (it stops requesting once the accumulator reaches the count), and a
200 response with an empty first page ends the fetch at once with the
empty list, whatever the expected count. -/
theorem c1_fetch_bounds (respS respW : Nat → Nat × List StarEntry)
    (respF : Nat → Nat × List ForkEntry) (nS nF nW P : Nat)
    (hS : ∀ p, ((respS p).2).length ≤ P)
    (hF : ∀ p, ((respF p).2).length ≤ P)
    (hW : ∀ p, ((respW p).2).length ≤ P) :
    (∀ l, get_starrers respS nS = .ok l → l.length ≤ nS + P) ∧
    (∀ l, get_forkers respF nF = .ok l → l.length ≤ nF + P) ∧
    (∀ l, get_watchers respW nW = .ok l → l.length ≤ nW + P) ∧
    (0 < nS → (respS 1).1 = 200 → ((respS 1).2).isEmpty = true →
      get_starrers respS nS = .ok []) ∧
    (0 < nF → (respF 1).1 = 200 → ((respF 1).2).isEmpty = true →
      get_forkers respF nF = .ok []) ∧
    (0 < nW → (respW 1).1 = 200 → ((respW 1).2).isEmpty = true →
      get_watchers respW nW = .ok []) := by
  refine ⟨?_, ?_, ?_, ?_, ?_, ?_⟩
  · intro l h
    have hb := relLoop_length_le _ respS nS P hS nS 1 [] l h
    simp only [List.length_nil, Nat.zero_max] at hb
    omega
  · intro l h
    have hb := relLoop_length_le _ respF nF P hF nF 1 [] l h
    simp only [List.length_nil, Nat.zero_max] at hb
    omega
  · intro l h
    have hb := relLoop_length_le _ respW nW P hW nW 1 [] l h
    simp only [List.length_nil, Nat.zero_max] at hb
    omega
  · exact fun h1 h2 h3 => relLoop_empty_first _ respS nS h1 h2 h3
  · exact fun h1 h2 h3 => relLoop_empty_first _ respF nF h1 h2 h3
  · exact fun h1 h2 h3 => relLoop_empty_first _ respW nW h1 h2 h3

/-- The starrers and watchers listing oracle for the C1 witness: every
page answers 200 with one entry. -/
def wrespOne : Nat → Nat × List StarEntry := fun _ => (200, [⟨"alice"⟩])

/-- The forkers listing oracle for the C1 witness: every page answers 200
with an empty body. -/
def wrespNone : Nat → Nat × List ForkEntry := fun _ => (200, [])

/-- Witness for C1 at concrete inputs: page size bound 1, expected counts
2, 0 and 1 for the three relations. -/
theorem c1_fetch_bounds_witness :
    (∀ l, get_starrers wrespOne 2 = .ok l → l.length ≤ 2 + 1) ∧
    (∀ l, get_forkers wrespNone 0 = .ok l → l.length ≤ 0 + 1) ∧
    (∀ l, get_watchers wrespOne 1 = .ok l → l.length ≤ 1 + 1) ∧
    (0 < 2 → (wrespOne 1).1 = 200 → ((wrespOne 1).2).isEmpty = true →
      get_starrers wrespOne 2 = .ok []) ∧
    (0 < 0 → (wrespNone 1).1 = 200 → ((wrespNone 1).2).isEmpty = true →
      get_forkers wrespNone 0 = .ok []) ∧
    (0 < 1 → (wrespOne 1).1 = 200 → ((wrespOne 1).2).isEmpty = true →
      get_watchers wrespOne 1 = .ok []) :=
  c1_fetch_bounds wrespOne wrespOne wrespNone 2 0 1 1
    (fun _ => by simp [wrespOne]) (fun _ => by simp [wrespNone])
    (fun _ => by simp [wrespOne])

/-- Claim C9: given an empty input sequence, export_to_csv writes nothing
at all — no header row and no content — and returns immediately without
signalling an error. For contrast, a nonempty input is the path that does
signal an error: the f.writerows attribute lookup raises, also before any
row is written. -/
theorem c9_export_empty :
    export_to_csv [] = .ok [] ∧
    ∀ users : List UserProfile, users ≠ [] →
      export_to_csv users = .error writerowsAttrError := by
  refine ⟨rfl, fun users h => ?_⟩
  simp [export_to_csv, h]

end GhRepoFollowers
